import Mathlib

/-!
Shallow embedding of `src/iris/bin/owasync.py` (the iris OWA mail sync
daemon): the message classifier `is_pointless_message`, the per-message
`relay` step, and the per-cycle `poll` loop, together with proofs of the
specified properties.

External collaborators (the exchangelib mailbox provider, the
`iris.metrics` sink and the `IrisClient` HTTP client) are modelled by
explicit oracles and state, with their failure modes surfaced as the
exception values the Python code can observe (`exchangelib.errors.EWSError`
and `requests.exceptions.RequestException`).  Exceptions are embedded
explicitly via `Except`, so the `try/except` structure of the source is
preserved and "no exception escapes" is a real theorem.
-/

namespace Owasync

/-- A mail header name/value pair.  In the source a header is either an
exchangelib header object (fields `.name`, `.value`) or the dict
transported to iris; both carry exactly a name and a value. -/
structure Header where
  name : String
  value : String
deriving DecidableEq, Repr

/-- The fields of an exchangelib message that `owasync.py` reads:
`message_id`, `sender.email_address`, `to_recipients` (each recipient's
`email_address`), `headers` (absent when the provider returned `None`),
`text_body`, and the mutable `is_read` flag. -/
structure Message where
  message_id : String
  sender : String
  to_recipients : List String
  headers : Option (List Header)
  text_body : String
  is_read : Bool
deriving DecidableEq, Repr

/-- The metric names used by the daemon (the keys of `default_metrics`). -/
inductive MetricName where
  | owa_api_failure_count
  | message_relay_success_count
  | message_relay_failure_count
  | total_inbox_count
  | unread_inbox_count
  | message_process_count
  | message_ignore_count
deriving DecidableEq, Repr

/-- The state of the metrics sink: one natural-number counter/gauge per
metric name, all zero at startup (`default_metrics`). -/
structure Metrics where
  owa_api_failure_count : Nat
  message_relay_success_count : Nat
  message_relay_failure_count : Nat
  total_inbox_count : Nat
  unread_inbox_count : Nat
  message_process_count : Nat
  message_ignore_count : Nat
deriving DecidableEq, Repr

/-- The all-zero startup state of the metrics sink. -/
def Metrics.init : Metrics := ⟨0, 0, 0, 0, 0, 0, 0⟩

/-- Read one named counter. -/
def metricsGet (m : Metrics) (n : MetricName) : Nat :=
  match n with
  | .owa_api_failure_count => m.owa_api_failure_count
  | .message_relay_success_count => m.message_relay_success_count
  | .message_relay_failure_count => m.message_relay_failure_count
  | .total_inbox_count => m.total_inbox_count
  | .unread_inbox_count => m.unread_inbox_count
  | .message_process_count => m.message_process_count
  | .message_ignore_count => m.message_ignore_count

/-- Modelled from the spec: `metrics.set(name, value)` of the
`iris.metrics` module (not under `src/`) — "Metrics sink: exposes
`set(name, value)` and `incr(name)`"; it overwrites the named gauge. -/
def metricsSet (m : Metrics) (n : MetricName) (v : Nat) : Metrics :=
  match n with
  | .owa_api_failure_count => { m with owa_api_failure_count := v }
  | .message_relay_success_count => { m with message_relay_success_count := v }
  | .message_relay_failure_count => { m with message_relay_failure_count := v }
  | .total_inbox_count => { m with total_inbox_count := v }
  | .unread_inbox_count => { m with unread_inbox_count := v }
  | .message_process_count => { m with message_process_count := v }
  | .message_ignore_count => { m with message_ignore_count := v }

/-- Modelled from the spec: `metrics.incr(name)` of the `iris.metrics`
module (not under `src/`) — increments the named counter by 1. -/
def metricsIncr (m : Metrics) (n : MetricName) : Metrics :=
  metricsSet m n (metricsGet m n + 1)

/-- `email_headers_to_ignore`: the fixed ignore-rule set (a frozenset in
the source; only membership matters for the boolean result). -/
def email_headers_to_ignore : List (String × String) :=
  [("X-Autoreply", "yes"),
   ("Auto-Submitted", "auto-replied"),
   ("Precedence", "bulk")]

/-- `is_pointless_message(headers)`: true iff some ignore rule occurs,
as an exact name/value pair, in the header list.  The Python test is
`{'name': header[0], 'value': header[1]} in headers`, i.e. dict equality
on the two keys, which is exact case-sensitive equality of both strings. -/
def is_pointless_message (headers : List Header) : Bool :=
  email_headers_to_ignore.any fun rule =>
    headers.any fun hd => hd.name == rule.1 && hd.value == rule.2

/-- The two exception categories the source can observe from its
collaborators: `exchangelib.errors.EWSError` (mailbox provider) and
`requests.exceptions.RequestException` (HTTP layer; `HTTPError` raised by
`raise_for_status` is a subclass of it). -/
inductive PyExn where
  | ewsError
  | requestException
deriving DecidableEq, Repr

instance : BEq PyExn := ⟨fun a b => decide (a = b)⟩

/-- `try body / except E: handler` over an exception monad whose errors
carry the local state `σ` at the raise point: a raised exception matching
the filter is replaced by the handler's result, any other exception
propagates. -/
def pyTry {σ α : Type} (body : Except (PyExn × σ) α) (catches : PyExn → Bool)
    (handler : PyExn → σ → α) : Except (PyExn × σ) α :=
  match body with
  | .ok a => .ok a
  | .error (e, s) => if catches e then .ok (handler e s) else .error (e, s)

/-- The three per-message outcomes of `relay` (the Python function's
control-flow branches: early return after the ignore counter, the
success branch after `raise_for_status`, and the `except` branch). -/
inductive RelayOutcome where
  | sent
  | ignored
  | failed
deriving DecidableEq, Repr

/-- The JSON payload posted to the iris API endpoint `response/email`:
`\x7b'headers': [...], 'body': ...\x7d`. -/
structure Payload where
  headers : List Header
  body : String
deriving DecidableEq, Repr

/-- The observable behaviour of one downstream POST: either the transport
raises a `RequestException`, or an HTTP response with the given status
code reaches the caller. -/
inductive PostBehavior where
  | transportError
  | response (status : Nat)
deriving DecidableEq, Repr

/-- Modelled from the spec: `IrisClient.post` (`iris/client.py`, not under
`src/`) is "a simple authenticated HTTP POST client; failures surface as a
generic request-error" — it returns the HTTP response (here its status
code) without checking the status, and transport failures raise a
`RequestException`. -/
def iris_client_post (b : PostBehavior) : Except PyExn Nat :=
  match b with
  | .transportError => .error .requestException
  | .response status => .ok status

/-- `requests.Response.raise_for_status()`: raises `HTTPError` (a subclass
of `RequestException`) exactly when the status code is in 400–599, and
returns normally otherwise (2xx, and any 3xx that reaches the caller,
such as 304). -/
def raise_for_status (status : Nat) : Except PyExn Unit :=
  if 400 ≤ status ∧ status < 600 then .error .requestException else .ok ()

/-- `message.text_body.strip()`: Python `str.strip()` with no argument,
removing leading and trailing whitespace characters from the string. -/
def pyStrip (s : String) : String :=
  String.mk (((s.data.dropWhile Char.isWhitespace).reverse.dropWhile Char.isWhitespace).reverse)

/-- Result of one `relay` call: the outcome, the metrics state after the
call, and the trace of HTTP POST payloads attempted (empty for an ignored
message, a single payload otherwise). -/
structure RelayResult where
  outcome : RelayOutcome
  metrics : Metrics
  posts : List Payload
deriving DecidableEq, Repr

/-- `relay(message, iris_client)`: ignore a message without headers;
convert the headers to name/value dicts; ignore a pointless message;
append the synthetic `To` (first recipient, when any) and `From` headers;
post the payload and `raise_for_status`, counting success, with
`except requests.exceptions.RequestException` counting failure.  The
downstream behaviour is the oracle `b`; errors carry the metrics state at
the raise point. -/
def relay (message : Message) (b : PostBehavior) (m : Metrics) :
    Except (PyExn × Metrics) RelayResult :=
  match message.headers with
  | none => .ok ⟨.ignored, metricsIncr m .message_ignore_count, []⟩
  | some hdrs =>
    let headers := hdrs.map fun h => (⟨h.name, h.value⟩ : Header)
    if is_pointless_message headers then
      .ok ⟨.ignored, metricsIncr m .message_ignore_count, []⟩
    else
      let headers :=
        match message.to_recipients with
        | [] => headers
        | r :: _ => headers ++ [⟨"To", r⟩]
      let headers := headers ++ [⟨"From", message.sender⟩]
      let data : Payload := ⟨headers, pyStrip message.text_body⟩
      pyTry
        (match iris_client_post b with
         | .error e => .error (e, m)
         | .ok status =>
           match raise_for_status status with
           | .error e => .error (e, m)
           | .ok _ =>
             .ok ⟨.sent, metricsIncr m .message_relay_success_count, [data]⟩)
        (fun e => e == .requestException)
        (fun _ m => ⟨.failed, metricsIncr m .message_relay_failure_count, [data]⟩)

/-- The augmented header list `relay` sends for a message whose original
headers are `hdrs`: the originals, then `To` (first recipient, when the
recipient list is non-empty), then `From` (sender). -/
def augmentedHeaders (message : Message) (hdrs : List Header) : List Header :=
  (match message.to_recipients with
   | [] => hdrs
   | r :: _ => hdrs ++ [⟨"To", r⟩]) ++ [⟨"From", message.sender⟩]

/-- The payload `relay` posts for a message with original headers `hdrs`. -/
def payloadOf (message : Message) (hdrs : List Header) : Payload :=
  ⟨augmentedHeaders message hdrs, pyStrip message.text_body⟩

/-- Pure description of `relay`'s result (the exception plumbing resolved). -/
def relayPure (message : Message) (b : PostBehavior) (m : Metrics) : RelayResult :=
  match message.headers with
  | none => ⟨.ignored, metricsIncr m .message_ignore_count, []⟩
  | some hdrs =>
    if is_pointless_message hdrs then
      ⟨.ignored, metricsIncr m .message_ignore_count, []⟩
    else
      match b with
      | .transportError =>
        ⟨.failed, metricsIncr m .message_relay_failure_count, [payloadOf message hdrs]⟩
      | .response status =>
        if 400 ≤ status ∧ status < 600 then
          ⟨.failed, metricsIncr m .message_relay_failure_count, [payloadOf message hdrs]⟩
        else
          ⟨.sent, metricsIncr m .message_relay_success_count, [payloadOf message hdrs]⟩

/-- Outcome of the two inbox-count attribute reads at the top of `poll`
(`account.inbox.total_count`, then `account.inbox.unread_count`): both
succeed, the second raises `EWSError` after the first was already set, or
the first raises. -/
inductive CountsOutcome where
  | ok (total unread : Nat)
  | failUnread (total : Nat)
  | fail
deriving DecidableEq, Repr

/-- One poll cycle's provider behaviour: the counts outcome; the unread
messages the iterator yields (newest first), each paired with its
downstream POST behaviour; whether the iterator raises `EWSError` after
yielding them; and whether `account.bulk_update` raises `EWSError`. -/
structure PollEnv where
  counts : CountsOutcome
  inbox : List (Message × PostBehavior)
  iterError : Bool
  bulkUpdateError : Bool
deriving Repr

/-- Local state of `poll`'s message loop: `processed_messages`, the
`messages_to_mark_read` accumulator (message with its read flag set,
paired with the `('is_read',)` field-name tuple), the trace of HTTP POSTs
performed so far, and the metrics state. -/
structure LoopState where
  processed : Nat
  pending : List (Message × List String)
  posts : List Payload
  metrics : Metrics
deriving Repr

/-- The entry appended to `messages_to_mark_read` for one message:
`message.is_read = True; messages_to_mark_read.append((message, ('is_read',)))`. -/
def markReadEntry (p : Message × PostBehavior) : Message × List String :=
  ({ p.1 with is_read := true }, ["is_read"])

/-- Body of the `try` around the two `metrics.set` calls for the inbox
counts: each attribute read can raise `EWSError`, leaving the metrics set
so far in place. -/
def countsBody (c : CountsOutcome) (m : Metrics) : Except (PyExn × Metrics) Metrics :=
  match c with
  | .ok t u => .ok (metricsSet (metricsSet m .total_inbox_count t) .unread_inbox_count u)
  | .failUnread t => .error (.ewsError, metricsSet m .total_inbox_count t)
  | .fail => .error (.ewsError, m)

/-- Body of the `try` around the message loop: for each yielded message,
increment `processed_messages`, call `relay`, mark the message read
locally and append it to `messages_to_mark_read`; after the last yielded
message the iterator raises `EWSError` when `iterError` is set, with the
accumulated local state intact at the raise point. -/
def pollLoop (items : List (Message × PostBehavior)) (iterError : Bool)
    (st : LoopState) : Except (PyExn × LoopState) LoopState :=
  match items with
  | [] => if iterError then .error (.ewsError, st) else .ok st
  | (message, b) :: rest =>
    let st := { st with processed := st.processed + 1 }
    match relay message b st.metrics with
    | .error (e, m) => .error (e, { st with metrics := m })
    | .ok r =>
      pollLoop rest iterError
        { st with
          metrics := r.metrics
          pending := st.pending ++ [markReadEntry (message, b)]
          posts := st.posts ++ r.posts }

/-- Body of the `try` around `account.bulk_update(items=...)`. -/
def bulkUpdateBody (fails : Bool) (m : Metrics) : Except (PyExn × Metrics) Metrics :=
  if fails then .error (.ewsError, m) else .ok m

/-- Result of one `poll` call: the returned `processed_messages` count, the
final metrics state, the HTTP POSTs performed, the argument lists of the
`bulk_update` calls attempted, and the final `messages_to_mark_read`. -/
structure PollResult where
  processed : Nat
  metrics : Metrics
  posts : List Payload
  bulkUpdates : List (List (Message × List String))
  pending : List (Message × List String)
deriving Repr

/-- `poll(account, iris_client)`: set the inbox-count gauges
(`except EWSError`: count an API failure); iterate the unread messages,
relaying each and accumulating read-state updates (`except EWSError`:
count an API failure, keep the partial accumulations); if any update is
pending, one `bulk_update` call (`except EWSError`: count an API
failure); set `message_process_count` and return `processed_messages`. -/
def poll (env : PollEnv) (m : Metrics) : Except (PyExn × Metrics) PollResult :=
  match pyTry (countsBody env.counts m) (fun e => e == .ewsError)
      (fun _ m => metricsIncr m .owa_api_failure_count) with
  | .error (e, m) => .error (e, m)
  | .ok m =>
    match pyTry (pollLoop env.inbox env.iterError ⟨0, [], [], m⟩)
        (fun e => e == .ewsError)
        (fun _ st => { st with metrics := metricsIncr st.metrics .owa_api_failure_count }) with
    | .error (e, st) => .error (e, st.metrics)
    | .ok st =>
      if st.pending.isEmpty then
        .ok ⟨st.processed, metricsSet st.metrics .message_process_count st.processed,
             st.posts, [], st.pending⟩
      else
        match pyTry (bulkUpdateBody env.bulkUpdateError st.metrics)
            (fun e => e == .ewsError)
            (fun _ m => metricsIncr m .owa_api_failure_count) with
        | .error (e, m2) => .error (e, m2)
        | .ok m2 =>
          .ok ⟨st.processed, metricsSet m2 .message_process_count st.processed,
               st.posts, [st.pending], st.pending⟩

/-- Pure description of the message loop's final local state. -/
def loopPure (items : List (Message × PostBehavior)) (st : LoopState) : LoopState :=
  match items with
  | [] => st
  | (message, b) :: rest =>
    let r := relayPure message b st.metrics
    loopPure rest
      ⟨st.processed + 1,
       st.pending ++ [markReadEntry (message, b)],
       st.posts ++ r.posts,
       r.metrics⟩

/-- Pure description of the metrics state after the counts block,
including the API-failure increment of its `except` clause. -/
def countsMetrics (c : CountsOutcome) (m : Metrics) : Metrics :=
  match c with
  | .ok t u => metricsSet (metricsSet m .total_inbox_count t) .unread_inbox_count u
  | .failUnread t => metricsIncr (metricsSet m .total_inbox_count t) .owa_api_failure_count
  | .fail => metricsIncr m .owa_api_failure_count

/-- Pure description of `poll`'s result. -/
def pollResultOf (env : PollEnv) (m : Metrics) : PollResult :=
  let st := loopPure env.inbox ⟨0, [], [], countsMetrics env.counts m⟩
  let st := if env.iterError then
      { st with metrics := metricsIncr st.metrics .owa_api_failure_count }
    else st
  if st.pending.isEmpty then
    ⟨st.processed, metricsSet st.metrics .message_process_count st.processed,
     st.posts, [], st.pending⟩
  else
    let m2 := if env.bulkUpdateError then
        metricsIncr st.metrics .owa_api_failure_count
      else st.metrics
    ⟨st.processed, metricsSet m2 .message_process_count st.processed,
     st.posts, [st.pending], st.pending⟩

/-- The HTTP POSTs one `relay` call performs, as a function of the message
alone: none for an ignored message, exactly the payload otherwise
(whatever the downstream does with it). -/
def relayPostsOf (message : Message) : List Payload :=
  match message.headers with
  | none => []
  | some hdrs =>
    if is_pointless_message hdrs then [] else [payloadOf message hdrs]

/-- A sample legitimate message: one ordinary header, one recipient. -/
def sampleMessage : Message :=
  ⟨"<msg-1@example.com>", "alice@example.com", ["oncall@example.com"],
   some [⟨"Subject", "disk full"⟩], "  disk is full\n", false⟩

/-- A sample bulk message matching the `Precedence: bulk` ignore rule. -/
def bulkMessage : Message :=
  ⟨"<msg-2@example.com>", "bot@example.com", ["oncall@example.com"],
   some [⟨"Precedence", "bulk"⟩], "auto reply", false⟩

/-- A sample message whose provider headers are present but empty. -/
def emptyHeadersMessage : Message :=
  ⟨"<msg-4@example.com>", "dave@example.com",
   ["first@example.com", "second@example.com"], some [], " body ", false⟩

/-- Whether the inbox-count block raised an `EWSError`. -/
def countsFailed (c : CountsOutcome) : Bool :=
  match c with
  | .ok _ _ => false
  | .failUnread _ => true
  | .fail => true

/-- A sample healthy poll cycle: counts readable, two messages (one
legitimate, one bulk), no iteration error, bulk update succeeds. -/
def sampleEnv : PollEnv :=
  ⟨.ok 5 2, [(sampleMessage, .response 200), (bulkMessage, .response 200)],
   false, false⟩

/-- A sample degraded poll cycle: counts unreadable, one message whose
POST fails in transport, iteration raising after it, bulk update failing. -/
def failEnv : PollEnv :=
  ⟨.fail, [(sampleMessage, .transportError)], true, true⟩

/-- Converting exchangelib header objects to dicts is the identity on the
embedded `Header` type. -/
theorem headers_map_eta (hdrs : List Header) :
    (hdrs.map fun h => (⟨h.name, h.value⟩ : Header)) = hdrs := by
  simp

/-- `relay` never raises: every exception arising inside it (transport
failure or `raise_for_status`) is a `RequestException` and is caught by
its own `except` clause, and its result is `relayPure`. -/
theorem relay_eq (message : Message) (b : PostBehavior) (m : Metrics) :
    relay message b m = .ok (relayPure message b m) := by
  unfold relay relayPure
  cases hh : message.headers with
  | none => rfl
  | some hdrs =>
    simp only [headers_map_eta]
    by_cases hp : is_pointless_message hdrs
    · simp [hp]
    · simp only [hp, if_false, Bool.false_eq_true]
      cases b with
      | transportError => rfl
      | response status =>
        by_cases hs : 400 ≤ status ∧ status < 600
        · simp [iris_client_post, raise_for_status, hs, pyTry, payloadOf, augmentedHeaders]
        · simp [iris_client_post, raise_for_status, hs, pyTry, payloadOf, augmentedHeaders]

/-- The loop body never raises anything but the iterator's `EWSError`:
its result is `loopPure`, with the state at an iterator raise intact. -/
theorem pollLoop_eq (items : List (Message × PostBehavior)) (iterError : Bool)
    (st : LoopState) :
    pollLoop items iterError st =
      if iterError then .error (.ewsError, loopPure items st)
      else .ok (loopPure items st) := by
  induction items generalizing st with
  | nil => cases iterError <;> rfl
  | cons p rest ih =>
    obtain ⟨message, b⟩ := p
    rw [pollLoop, relay_eq, loopPure]
    exact ih _

/-- `poll` never raises: every provider or HTTP failure is caught inside
the cycle, and the result is `pollResultOf`. -/
theorem poll_eq (env : PollEnv) (m : Metrics) :
    poll env m = .ok (pollResultOf env m) := by
  unfold poll pollResultOf
  have hcounts : pyTry (countsBody env.counts m) (fun e => e == PyExn.ewsError)
      (fun _ m => metricsIncr m .owa_api_failure_count) = .ok (countsMetrics env.counts m) := by
    cases env.counts <;> rfl
  rw [hcounts]
  dsimp only
  rw [pollLoop_eq]
  cases hiter : env.iterError with
  | false =>
    simp only [pyTry, if_false]
    cases hpend : (loopPure env.inbox ⟨0, [], [], countsMetrics env.counts m⟩).pending.isEmpty with
    | true => simp [hpend]
    | false =>
      cases hbulk : env.bulkUpdateError <;>
        simp [hpend, hbulk, pyTry, bulkUpdateBody]
  | true =>
    simp only [pyTry]
    cases hpend : (loopPure env.inbox ⟨0, [], [], countsMetrics env.counts m⟩).pending.isEmpty with
    | true => simp [hpend]
    | false =>
      cases hbulk : env.bulkUpdateError <;>
        simp [hpend, hbulk, pyTry, bulkUpdateBody]

theorem relayPure_posts (message : Message) (b : PostBehavior) (m : Metrics) :
    (relayPure message b m).posts = relayPostsOf message := by
  unfold relayPure relayPostsOf
  cases message.headers with
  | none => rfl
  | some hdrs =>
    by_cases hp : is_pointless_message hdrs
    · simp [hp]
    · cases b with
      | transportError => simp [hp]
      | response status =>
        by_cases hs : 400 ≤ status ∧ status < 600 <;> simp [hp, hs]

theorem loopPure_processed (items : List (Message × PostBehavior)) (st : LoopState) :
    (loopPure items st).processed = st.processed + items.length := by
  induction items generalizing st with
  | nil => simp [loopPure]
  | cons p rest ih =>
    obtain ⟨message, b⟩ := p
    rw [loopPure, ih]
    simp
    omega

theorem loopPure_pending (items : List (Message × PostBehavior)) (st : LoopState) :
    (loopPure items st).pending = st.pending ++ items.map markReadEntry := by
  induction items generalizing st with
  | nil => simp [loopPure]
  | cons p rest ih =>
    obtain ⟨message, b⟩ := p
    rw [loopPure, ih]
    simp

theorem loopPure_posts (items : List (Message × PostBehavior)) (st : LoopState) :
    (loopPure items st).posts = st.posts ++ (items.map fun p => relayPostsOf p.1).flatten := by
  induction items generalizing st with
  | nil => simp [loopPure]
  | cons p rest ih =>
    obtain ⟨message, b⟩ := p
    rw [loopPure, ih]
    simp [relayPure_posts]

/-- `relay` never touches the `owa_api_failure_count` counter. -/
theorem relayPure_owa (message : Message) (b : PostBehavior) (m : Metrics) :
    (relayPure message b m).metrics.owa_api_failure_count = m.owa_api_failure_count := by
  unfold relayPure
  cases message.headers with
  | none => simp [metricsIncr, metricsSet, metricsGet]
  | some hdrs =>
    by_cases hp : is_pointless_message hdrs
    · simp [hp, metricsIncr, metricsSet, metricsGet]
    · cases b with
      | transportError => simp [hp, metricsIncr, metricsSet, metricsGet]
      | response status =>
        by_cases hs : 400 ≤ status ∧ status < 600 <;>
          simp [hp, hs, metricsIncr, metricsSet, metricsGet]

/-- The message loop never touches the `owa_api_failure_count` counter. -/
theorem loopPure_owa (items : List (Message × PostBehavior)) (st : LoopState) :
    (loopPure items st).metrics.owa_api_failure_count =
      st.metrics.owa_api_failure_count := by
  induction items generalizing st with
  | nil => rfl
  | cons p rest ih =>
    obtain ⟨message, b⟩ := p
    rw [loopPure, ih]
    exact relayPure_owa message b st.metrics

/-- The counts block adds 1 to `owa_api_failure_count` exactly when one of
the two attribute reads raised. -/
theorem countsMetrics_owa (c : CountsOutcome) (m : Metrics) :
    (countsMetrics c m).owa_api_failure_count =
      m.owa_api_failure_count + (if countsFailed c then 1 else 0) := by
  cases c <;> simp [countsMetrics, countsFailed, metricsIncr, metricsSet, metricsGet]

/-- The shape of `poll`'s result on every environment: the processed count
is the number of iterated messages, recorded in the process gauge; the
pending list is exactly the iterated messages, read flags set; the POSTs
are the per-message relay attempts in order; and one bulk update is
attempted exactly when a message was iterated. -/
theorem pollResultOf_spec (env : PollEnv) (m : Metrics) :
    (pollResultOf env m).processed = env.inbox.length ∧
    (pollResultOf env m).pending = env.inbox.map markReadEntry ∧
    (pollResultOf env m).posts = (env.inbox.map fun p => relayPostsOf p.1).flatten ∧
    (pollResultOf env m).bulkUpdates =
      (if env.inbox.isEmpty then [] else [env.inbox.map markReadEntry]) ∧
    (pollResultOf env m).metrics.message_process_count = env.inbox.length := by
  unfold pollResultOf
  have hpend := loopPure_pending env.inbox ⟨0, [], [], countsMetrics env.counts m⟩
  have hproc := loopPure_processed env.inbox ⟨0, [], [], countsMetrics env.counts m⟩
  have hposts := loopPure_posts env.inbox ⟨0, [], [], countsMetrics env.counts m⟩
  simp only [List.nil_append, Nat.zero_add] at hpend hproc hposts
  cases henv : env.inbox with
  | nil =>
    rw [henv] at hpend hproc hposts
    cases hiter : env.iterError <;>
      simp [henv, hiter, hpend, hproc, hposts, metricsSet]
  | cons p rest =>
    rw [henv] at hpend hproc hposts
    cases hiter : env.iterError <;>
      cases hbulk : env.bulkUpdateError <;>
        simp [henv, hiter, hbulk, hpend, hproc, hposts, metricsSet, metricsIncr, metricsGet]

/-- A header list holds a rule pair as an exact element iff some element
matches name and value. -/
theorem any_pair_mem (hs : List Header) (n v : String) :
    (hs.any fun hd => hd.name == n && hd.value == v) = true ↔ (⟨n, v⟩ : Header) ∈ hs := by
  simp only [List.any_eq_true, Bool.and_eq_true, beq_iff_eq]
  constructor
  · rintro ⟨hd, hmem, h1, h2⟩
    cases hd
    subst h1
    subst h2
    exact hmem
  · intro hmem
    exact ⟨_, hmem, rfl, rfl⟩

/-- C1: `is_pointless_message` returns true iff the header list contains,
as an exact case-sensitive element, at least one of the three fixed rule
pairs `X-Autoreply: yes`, `Auto-Submitted: auto-replied`,
`Precedence: bulk`; it returns false when it contains none of them. -/
theorem C1_is_pointless_message_iff (hs : List Header) :
    is_pointless_message hs = true ↔
      ((⟨"X-Autoreply", "yes"⟩ : Header) ∈ hs ∨
       (⟨"Auto-Submitted", "auto-replied"⟩ : Header) ∈ hs ∨
       (⟨"Precedence", "bulk"⟩ : Header) ∈ hs) := by
  simp only [is_pointless_message, email_headers_to_ignore, List.any_cons, List.any_nil,
    Bool.or_false, Bool.or_eq_true, any_pair_mem]

/-- C2: for an accepted message (headers present, not pointless), the
payload `relay` posts carries the original headers, then a synthetic `To`
header with the first recipient's address when the recipient list is
non-empty (and no synthetic `To` when it is empty), then a synthetic
`From` header with the sender's address; and its body is the message's
text body with leading and trailing whitespace stripped. -/
theorem C2_relay_payload (message : Message) (hdrs : List Header)
    (b : PostBehavior) (m : Metrics)
    (hh : message.headers = some hdrs) (hp : is_pointless_message hdrs = false) :
    ∃ r, relay message b m = .ok r ∧
      r.posts =
        [⟨(match message.to_recipients with
           | [] => hdrs
           | rcpt :: _ => hdrs ++ [⟨"To", rcpt⟩]) ++ [⟨"From", message.sender⟩],
          pyStrip message.text_body⟩] := by
  refine ⟨relayPure message b m, relay_eq .., ?_⟩
  rw [relayPure_posts]
  unfold relayPostsOf
  rw [hh]
  simp [hp, payloadOf, augmentedHeaders]

/-- C3: a message whose original headers match an ignore rule is Ignored:
the ignore counter is incremented (and no other metric changes), and no
HTTP call is made, whatever the downstream would have answered; and since
the classifier runs on the original headers before the synthetic To/From
headers are appended, a message whose original headers are not pointless
is never Ignored — synthetic headers can neither trigger nor mask a rule. -/
theorem C3_relay_ignores_pointless (message : Message) (hdrs : List Header)
    (b : PostBehavior) (m : Metrics) (hh : message.headers = some hdrs) :
    (is_pointless_message hdrs = true →
      relay message b m = .ok ⟨.ignored, metricsIncr m .message_ignore_count, []⟩) ∧
    (is_pointless_message hdrs = false →
      ∀ r, relay message b m = .ok r → r.outcome ≠ .ignored) := by
  constructor
  · intro hp
    rw [relay_eq]
    unfold relayPure
    rw [hh]
    simp [hp]
  · intro hp r hr
    rw [relay_eq] at hr
    have : r = relayPure message b m := by
      injection hr.symm
    subst this
    unfold relayPure
    rw [hh]
    cases b with
    | transportError => simp [hp]
    | response status =>
      by_cases hs : 400 ≤ status ∧ status < 600 <;> simp [hp, hs]

/-- C2 witness: for the sample accepted message, the posted payload holds
the original `Subject` header, then `To` with the first recipient, then
`From` with the sender, and the stripped body. -/
theorem C2_relay_payload_witness :
    sampleMessage.headers = some [⟨"Subject", "disk full"⟩] ∧
    is_pointless_message [⟨"Subject", "disk full"⟩] = false ∧
    ∃ r, relay sampleMessage (.response 200) Metrics.init = .ok r ∧
      r.posts = [⟨[⟨"Subject", "disk full"⟩, ⟨"To", "oncall@example.com"⟩,
                   ⟨"From", "alice@example.com"⟩], "disk is full"⟩] := by
  refine ⟨rfl, by decide, ?_⟩
  obtain ⟨r, hr, hp⟩ := C2_relay_payload sampleMessage [⟨"Subject", "disk full"⟩]
    (.response 200) Metrics.init rfl (by decide)
  exact ⟨r, hr, by rw [hp]; decide⟩

/-- C3 witness: the sample bulk message is Ignored with the ignore counter
incremented and no POST, and a non-pointless header list is never Ignored. -/
theorem C3_relay_ignores_pointless_witness :
    bulkMessage.headers = some [⟨"Precedence", "bulk"⟩] ∧
    is_pointless_message [⟨"Precedence", "bulk"⟩] = true ∧
    relay bulkMessage (.response 200) Metrics.init =
      .ok ⟨.ignored, metricsIncr Metrics.init .message_ignore_count, []⟩ := by
  refine ⟨rfl, by decide, ?_⟩
  exact (C3_relay_ignores_pointless bulkMessage [⟨"Precedence", "bulk"⟩]
    (.response 200) Metrics.init rfl).1 (by decide)

/-- C4 counterexample: the claim says any non-2xx response yields Failed
and increments the failure counter, but a 304 response — not a 2xx — is
not an error status for `raise_for_status`, so `relay` yields Sent,
increments the success counter and leaves the failure counter at zero. -/
theorem C4_counterexample :
    ¬ (200 ≤ 304 ∧ 304 ≤ 299) ∧
    ∃ r, relay sampleMessage (.response 304) Metrics.init = .ok r ∧
      r.outcome = .sent ∧ r.outcome ≠ .failed ∧
      r.metrics.message_relay_success_count = 1 ∧
      r.metrics.message_relay_failure_count = 0 := by
  refine ⟨by decide, ⟨relayPure sampleMessage (.response 304) Metrics.init,
    relay_eq sampleMessage (.response 304) Metrics.init, by decide, by decide, by decide, by decide⟩⟩

/-- C4 (amended): for an accepted message on which the POST is attempted,
a response whose status lies outside 400–599 — every 2xx, but also a
non-redirect 3xx such as 304 — yields Sent with
`message_relay_success_count` incremented by exactly 1 and the failure
counter untouched, while a 4xx or 5xx response or a transport failure
yields Failed with `message_relay_failure_count` incremented by exactly 1
and the success counter untouched; exactly one POST is attempted — no
retry within the call. -/
theorem C4_relay_status_metrics (message : Message) (hdrs : List Header) (m : Metrics)
    (hh : message.headers = some hdrs) (hp : is_pointless_message hdrs = false) :
    (∀ status, ¬ (400 ≤ status ∧ status < 600) →
      relay message (.response status) m =
        .ok ⟨.sent, metricsIncr m .message_relay_success_count, [payloadOf message hdrs]⟩) ∧
    (∀ status, 400 ≤ status → status < 600 →
      relay message (.response status) m =
        .ok ⟨.failed, metricsIncr m .message_relay_failure_count, [payloadOf message hdrs]⟩) ∧
    relay message .transportError m =
      .ok ⟨.failed, metricsIncr m .message_relay_failure_count, [payloadOf message hdrs]⟩ := by
  refine ⟨?_, ?_, ?_⟩
  · intro status hs
    rw [relay_eq]
    unfold relayPure
    rw [hh]
    simp [hp, hs]
  · intro status h4 h6
    rw [relay_eq]
    unfold relayPure
    rw [hh]
    simp [hp, h4, h6]
  · rw [relay_eq]
    unfold relayPure
    rw [hh]
    simp [hp]

/-- C4 witness: a 200 response on the sample message is Sent with the
success counter at 1; a 500 response is Failed with the failure counter
at 1; in both cases exactly one payload is posted. -/
theorem C4_relay_status_metrics_witness :
    relay sampleMessage (.response 200) Metrics.init =
      .ok ⟨.sent, metricsIncr Metrics.init .message_relay_success_count,
           [payloadOf sampleMessage [⟨"Subject", "disk full"⟩]]⟩ ∧
    relay sampleMessage (.response 500) Metrics.init =
      .ok ⟨.failed, metricsIncr Metrics.init .message_relay_failure_count,
           [payloadOf sampleMessage [⟨"Subject", "disk full"⟩]]⟩ := by
  have h := C4_relay_status_metrics sampleMessage [⟨"Subject", "disk full"⟩]
    Metrics.init rfl (by decide)
  exact ⟨h.1 200 (by decide), h.2.1 500 (by decide) (by decide)⟩

/-- C5: on every poll cycle, the pending read-state-update list of the
returned cycle is exactly the iterated messages in order, each with its
read flag set true and tagged with the `is_read` field name — appended
regardless of relay outcome — and the cycle's POST trace is the
concatenation of each iterated message's completed relay attempt, so a
message enters the pending list exactly when its relay attempt completed. -/
theorem C5_pending_iff_relay_attempted (env : PollEnv) (m : Metrics) (r : PollResult)
    (h : poll env m = .ok r) :
    r.pending = env.inbox.map markReadEntry ∧
    r.posts = (env.inbox.map fun p => relayPostsOf p.1).flatten := by
  rw [poll_eq] at h
  injection h with h
  subst h
  exact ⟨(pollResultOf_spec env m).2.1, (pollResultOf_spec env m).2.2.1⟩

/-- C5 witness: in the sample cycle, both messages (the relayed one and
the ignored one) are pending with read flags set, and the POST trace holds
exactly the accepted message's payload. -/
theorem C5_pending_iff_relay_attempted_witness :
    ∃ r, poll sampleEnv Metrics.init = .ok r ∧
      r.pending = sampleEnv.inbox.map markReadEntry ∧
      r.posts = [payloadOf sampleMessage [⟨"Subject", "disk full"⟩]] := by
  obtain ⟨h1, h2⟩ := C5_pending_iff_relay_attempted sampleEnv Metrics.init
    (pollResultOf sampleEnv Metrics.init) (poll_eq sampleEnv Metrics.init)
  exact ⟨pollResultOf sampleEnv Metrics.init, poll_eq sampleEnv Metrics.init, h1,
    by rw [h2]; decide⟩

/-- C6: `poll` returns the number of messages iterated in the cycle —
whatever mix of Sent, Ignored and Failed they were — and records that
same number in the `message_process_count` gauge. -/
theorem C6_poll_returns_processed_count (env : PollEnv) (m : Metrics) (r : PollResult)
    (h : poll env m = .ok r) :
    r.processed = env.inbox.length ∧
    r.metrics.message_process_count = env.inbox.length := by
  rw [poll_eq] at h
  injection h with h
  subst h
  exact ⟨(pollResultOf_spec env m).1, (pollResultOf_spec env m).2.2.2.2⟩

/-- C6 witness: the sample cycle iterates two messages (one relayed, one
ignored) and both the return value and the gauge are 2. -/
theorem C6_poll_returns_processed_count_witness :
    ∃ r, poll sampleEnv Metrics.init = .ok r ∧ r.processed = 2 ∧
      r.metrics.message_process_count = 2 := by
  obtain ⟨h1, h2⟩ := C6_poll_returns_processed_count sampleEnv Metrics.init
    (pollResultOf sampleEnv Metrics.init) (poll_eq sampleEnv Metrics.init)
  exact ⟨pollResultOf sampleEnv Metrics.init, poll_eq sampleEnv Metrics.init, h1, h2⟩

/-- C7: when message iteration raises a provider error after the iterator
yielded its messages, the pending list holds exactly those messages, and
`poll` still attempts exactly one bulk mark-read call covering them — one
call when at least one message was processed, none when none was. -/
theorem C7_partial_iteration_bulk_update (env : PollEnv) (m : Metrics) (r : PollResult)
    (_hiter : env.iterError = true) (h : poll env m = .ok r) :
    r.processed = env.inbox.length ∧
    r.pending = env.inbox.map markReadEntry ∧
    r.bulkUpdates = (if env.inbox.isEmpty then [] else [r.pending]) := by
  rw [poll_eq] at h
  injection h with h
  subst h
  obtain ⟨h1, h2, _, h4, _⟩ := pollResultOf_spec env m
  exact ⟨h1, h2, by rw [h4, h2]⟩

/-- C7 witness: in the degraded cycle the iterator fails after one
message; that message is pending and exactly one bulk update covering it
is attempted. -/
theorem C7_partial_iteration_bulk_update_witness :
    failEnv.iterError = true ∧
    ∃ r, poll failEnv Metrics.init = .ok r ∧
      r.processed = 1 ∧
      r.pending = [({ sampleMessage with is_read := true }, ["is_read"])] ∧
      r.bulkUpdates = [r.pending] := by
  refine ⟨rfl, pollResultOf failEnv Metrics.init, poll_eq failEnv Metrics.init, ?_⟩
  obtain ⟨h1, h2, h3⟩ := C7_partial_iteration_bulk_update failEnv Metrics.init
    (pollResultOf failEnv Metrics.init) rfl (poll_eq failEnv Metrics.init)
  exact ⟨h1, by rw [h2]; decide, by rw [h3]; decide⟩

/-- C8: `poll` never raises, for every provider, relay and message
behaviour: every failure inside the cycle (count fetch, message
iteration, per-message POST, bulk update) is caught within the cycle and
turned into metric increments — the `owa_api_failure_count` counter grows
by exactly one per caught provider failure. -/
theorem C8_poll_never_raises (env : PollEnv) (m : Metrics) :
    ∃ r, poll env m = .ok r ∧
      r.metrics.owa_api_failure_count =
        m.owa_api_failure_count + (if countsFailed env.counts then 1 else 0) +
          (if env.iterError then 1 else 0) +
          (if env.inbox.isEmpty then 0 else if env.bulkUpdateError then 1 else 0) := by
  refine ⟨pollResultOf env m, poll_eq env m, ?_⟩
  unfold pollResultOf
  have howa := loopPure_owa env.inbox ⟨0, [], [], countsMetrics env.counts m⟩
  have hpend := loopPure_pending env.inbox ⟨0, [], [], countsMetrics env.counts m⟩
  simp only [List.nil_append] at hpend
  cases henv : env.inbox with
  | nil =>
    rw [henv] at howa hpend
    cases hiter : env.iterError <;>
      simp [henv, hiter, howa, hpend, countsMetrics_owa, metricsSet, metricsIncr, metricsGet]
  | cons p rest =>
    rw [henv] at howa hpend
    cases hiter : env.iterError <;>
      cases hbulk : env.bulkUpdateError <;>
        simp [henv, hiter, hbulk, howa, hpend, countsMetrics_owa, metricsSet,
          metricsIncr, metricsGet]

/-- C9: a message whose headers field is present but empty is not ignored:
the classifier returns false on the empty list, and exactly one POST is
performed whose payload headers are only the synthetic `To` (when the
recipient list is non-empty) and `From` headers. -/
theorem C9_relay_empty_headers (message : Message) (b : PostBehavior) (m : Metrics)
    (hh : message.headers = some []) :
    is_pointless_message [] = false ∧
    ∃ r, relay message b m = .ok r ∧ r.outcome ≠ .ignored ∧
      r.posts = [⟨(match message.to_recipients with
                   | [] => []
                   | rcpt :: _ => [⟨"To", rcpt⟩]) ++ [⟨"From", message.sender⟩],
                  pyStrip message.text_body⟩] := by
  refine ⟨by decide, relayPure message b m, relay_eq message b m, ?_, ?_⟩
  · unfold relayPure
    rw [hh]
    cases b with
    | transportError => simp [is_pointless_message, email_headers_to_ignore]
    | response status =>
      by_cases hs : 400 ≤ status ∧ status < 600 <;>
        simp [is_pointless_message, email_headers_to_ignore, hs]
  · rw [relayPure_posts]
    unfold relayPostsOf
    rw [hh]
    simp [is_pointless_message, email_headers_to_ignore, payloadOf, augmentedHeaders]

/-- C9 witness: the sample message with empty headers and two recipients
is relayed with payload headers `To: first recipient` and `From: sender`
and stripped body. -/
theorem C9_relay_empty_headers_witness :
    emptyHeadersMessage.headers = some [] ∧
    is_pointless_message [] = false ∧
    ∃ r, relay emptyHeadersMessage (.response 200) Metrics.init = .ok r ∧
      r.outcome ≠ .ignored ∧
      r.posts = [⟨[⟨"To", "first@example.com"⟩, ⟨"From", "dave@example.com"⟩], "body"⟩] := by
  refine ⟨rfl, by decide, ?_⟩
  obtain ⟨_, r, hr, ho, hp⟩ := C9_relay_empty_headers emptyHeadersMessage
    (.response 200) Metrics.init rfl
  exact ⟨r, hr, ho, by rw [hp]; decide⟩

/-- C10: every completed `relay` call increments exactly one of the three
counters `message_ignore_count`, `message_relay_success_count`,
`message_relay_failure_count`, by exactly 1, leaving the other two
untouched. -/
theorem C10_relay_one_counter (message : Message) (b : PostBehavior) (m : Metrics) :
    ∃ r, relay message b m = .ok r ∧
      ((r.metrics.message_ignore_count = m.message_ignore_count + 1 ∧
        r.metrics.message_relay_success_count = m.message_relay_success_count ∧
        r.metrics.message_relay_failure_count = m.message_relay_failure_count) ∨
       (r.metrics.message_ignore_count = m.message_ignore_count ∧
        r.metrics.message_relay_success_count = m.message_relay_success_count + 1 ∧
        r.metrics.message_relay_failure_count = m.message_relay_failure_count) ∨
       (r.metrics.message_ignore_count = m.message_ignore_count ∧
        r.metrics.message_relay_success_count = m.message_relay_success_count ∧
        r.metrics.message_relay_failure_count = m.message_relay_failure_count + 1)) := by
  refine ⟨relayPure message b m, relay_eq message b m, ?_⟩
  unfold relayPure
  cases message.headers with
  | none => simp [metricsIncr, metricsSet, metricsGet]
  | some hdrs =>
    by_cases hp : is_pointless_message hdrs
    · simp [hp, metricsIncr, metricsSet, metricsGet]
    · cases b with
      | transportError => simp [hp, metricsIncr, metricsSet, metricsGet]
      | response status =>
        by_cases hs : 400 ≤ status ∧ status < 600 <;>
          simp [hp, hs, metricsIncr, metricsSet, metricsGet]

end Owasync
